import Mathlib

/-!
Verification of the langchain-langgraph-agents repository.

Shallow embedding of the parts of the code the claims touch:
- `src/core/constants.py` : `NODES`, `MiddlewareConfig` / `middleware_config`
- `src/core/settings.py`  : `Settings` / `settings`
- `src/core/middleware.py`: `logging_middleware`, `retry_middleware`,
  `ToolErrorMiddleware`, `build_middleware`, `DEFAULT_MIDDLEWARE`
- `src/agent/graph.py`    : `route_to_node`
- `src/tools/tools.py`    : `calculate`
- `main.py`               : `/invoke`, `/stream` handlers and the SSE
  generator `generate`

External primitives (Python `eval`, `str`, wall-clock time, the compiled
LangGraph run, UUID generation) are passed as parameters: the embedding is
parametric in them and the theorems hold for every instantiation.
-/

namespace Agents

/-! ## constants.py -/

/-- `NODES` from `src/core/constants.py`: the node registry. -/
def NODES : List String := ["assistant"]

/-- `MiddlewareConfig` from `src/core/constants.py` (frozen dataclass).
Delays are floats in the source; they are modelled as rationals, exact for
the values the code computes (`1.0 * 2**attempt` and `10.0` are exactly
representable and `min` is exact). -/
structure MiddlewareConfig where
  max_retries : Nat := 3
  retry_base_delay : ℚ := 1
  max_retry_delay : ℚ := 10
deriving Repr

/-- `middleware_config = MiddlewareConfig()` from `src/core/constants.py`. -/
def middleware_config : MiddlewareConfig := {}

/-! ## settings.py -/

/-- `Settings` from `src/core/settings.py`, restricted to the fields the
claims use, with the defaults declared on the `Field`s (values read from the
environment override them; the default-constructed value models a run with
no overriding environment variables). -/
structure Settings where
  ENABLE_RETRY : Bool := false
  ENABLE_LOGGING : Bool := false
  ENABLE_SUMMARIZATION : Bool := true
  MAX_RETRIES : Nat := 3
deriving Repr, DecidableEq

/-- `settings = Settings()` built at import time with no environment
overrides. -/
def settings : Settings := {}

/-! ## agent/graph.py : routing -/

/-- The routing-relevant part of the conversation `State`
(`src/agent/state.py`): the `node` field. `none` models the key being
absent from the state dict; `some v` models the key present with value `v`
(possibly the empty string). -/
structure GraphState where
  node : Option String
deriving Repr, DecidableEq

/-- `route_to_node` from `src/agent/graph.py`:
`return state.get("node", "assistant")`. Python `dict.get` returns the
stored value whenever the key is present, even if that value is falsy, and
the default only when the key is absent. -/
def route_to_node (state : GraphState) : String :=
  match state.node with
  | some v => v
  | none => "assistant"

/-! ## tools/tools.py : calculate -/

/-- The allowed-character set of `calculate`:
`set("0123456789+-*/.(). ")`. -/
def calculateAllowed : List Char := "0123456789+-*/.(). ".toList

/-- `calculate` from `src/tools/tools.py`. Python `str(eval(expression))`
is an external primitive; it is modelled by the parameter `evalStr`, which
returns the printed value or the exception message it raises. The
character check `all(c in allowed for c in expression)` cannot raise on a
string, so the `try` only guards the evaluation. -/
def calculate (evalStr : String → Except String String) (expression : String) :
    String :=
  if expression.toList.all (fun c => c ∈ calculateAllowed) then
    match evalStr expression with
    | Except.ok v => v
    | Except.error e => "Error: " ++ e
  else
    "Error: Invalid characters"

/-! ## middleware.py : retry -/

/-- Trace of one run of `retry_middleware`: the outcome (`Except.error`
models the final `raise last_error`; the `Option` is `none` only when
`MAX_RETRIES = 0`, where Python would `raise None`), the number of calls
made to the inner `handler`, and the sequence of `time.sleep` delays, in
order. -/
structure RetryTrace (E A : Type) where
  result : Except (Option E) A
  calls : Nat
  delays : List ℚ
deriving Repr

/-- The delay slept after a failed attempt, from `retry_middleware`:
`min(middleware_config.retry_base_delay * (2**attempt), middleware_config.max_retry_delay)`. -/
def retryDelay (attempt : Nat) : ℚ :=
  min (middleware_config.retry_base_delay * 2 ^ attempt)
    middleware_config.max_retry_delay

/-- The `for attempt in range(settings.MAX_RETRIES)` loop of
`retry_middleware`, by recursion on the remaining iterations. The handler
is modelled as a function of the attempt index (`handler i` is what
`handler(request)` does on the `i`-th call). After a failure the code
records the error, sleeps, and continues; after the loop it raises the
last recorded error. -/
def retryAux (handler : Nat → Except E A) :
    Nat → Nat → Option E → RetryTrace E A
  | _, 0, lastError => ⟨Except.error lastError, 0, []⟩
  | attempt, rem + 1, _ =>
    match handler attempt with
    | Except.ok a => ⟨Except.ok a, 1, []⟩
    | Except.error e =>
      let t := retryAux handler (attempt + 1) rem (some e)
      ⟨t.result, t.calls + 1, retryDelay attempt :: t.delays⟩

/-- `retry_middleware` from `src/core/middleware.py`, as a function of the
configured `settings.MAX_RETRIES` and of the handler's behaviour per
attempt. -/
def retry_middleware (maxRetries : Nat) (handler : Nat → Except E A) :
    RetryTrace E A :=
  retryAux handler 0 maxRetries none

/-! ## middleware.py : tool error isolation -/

/-- The part of a tool-call request `ToolErrorMiddleware` reads:
`request.tool_call` with its `"id"` (always looked up with `[...]`) and
optional `"name"` (looked up with `.get(..., "unknown")`). -/
structure ToolCallInfo where
  id : String
  name : Option String
deriving Repr, DecidableEq

/-- A LangChain `ToolMessage`, restricted to the fields the middleware
sets. -/
structure ToolMessage where
  content : String
  tool_call_id : String
deriving Repr, DecidableEq

/-- `ToolErrorMiddleware._error_message`: builds the recovery
`ToolMessage` for exception text `e`. -/
def toolError_error_message (tc : ToolCallInfo) (e : String) : ToolMessage :=
  { content := "Tool error in \x27" ++ (tc.name.getD "unknown") ++ "\x27: "
      ++ e ++ ". Please check your input and try again."
    tool_call_id := tc.id }

/-- Result of a wrapped tool call: either the inner handler's value, or
the substituted error `ToolMessage`. The middleware itself never raises. -/
inductive ToolCallResult (A : Type) where
  | ok (a : A)
  | errMsg (m : ToolMessage)
deriving Repr, DecidableEq

/-- `ToolErrorMiddleware._handle` (and `_ahandle`, identical up to
`await`): run the handler; on any exception return the error message
instead of propagating. The handler's behaviour is its `Except` value. -/
def toolError_handle (tc : ToolCallInfo) (handler : Except String A) :
    ToolCallResult A :=
  match handler with
  | Except.ok a => ToolCallResult.ok a
  | Except.error e => ToolCallResult.errMsg (toolError_error_message tc e)

/-! ## middleware.py : logging -/

/-- `logging_middleware` from `src/core/middleware.py`. Wall-clock elapsed
time is external; the formatted `f"{elapsed:.2f}"` text is the parameter
`elapsed`. The request is modelled by the list of message contents in
`request.state["messages"]`; the inner handler is an arbitrary function of
the request that may raise. Returns the propagated outcome together with
the log lines written, in order. -/
def logging_middleware (elapsed : String) (requestMessages : List String)
    (handler : List String → Except E A) : Except E A × List String :=
  let requestLog : List String :=
    match requestMessages.getLast? with
    | some content => ["[LLM Request] " ++ content.take 100 ++ "..."]
    | none => []
  match handler requestMessages with
  | Except.ok r => (Except.ok r, requestLog ++ ["[LLM Response] " ++ elapsed ++ "s"])
  | Except.error e => (Except.error e, requestLog)

/-! ## middleware.py : build_middleware -/

/-- The four middleware stages `build_middleware` can put in the chain. -/
inductive Stage where
  | summarization
  | logging
  | retry
  | toolError
deriving Repr, DecidableEq

/-- `build_middleware` from `src/core/middleware.py`: summarization if
`ENABLE_SUMMARIZATION`, then logging if `ENABLE_LOGGING`, then retry if
`ENABLE_RETRY`, then the tool-error middleware unconditionally. -/
def build_middleware (s : Settings) : List Stage :=
  (if s.ENABLE_SUMMARIZATION then [Stage.summarization] else []) ++
  (if s.ENABLE_LOGGING then [Stage.logging] else []) ++
  (if s.ENABLE_RETRY then [Stage.retry] else []) ++
  [Stage.toolError]

/-- `DEFAULT_MIDDLEWARE = build_middleware()` evaluated at import time on
the current settings. -/
def DEFAULT_MIDDLEWARE : List Stage := build_middleware settings

/-! ## main.py : request/response model -/

/-- `InvokeRequest` from `main.py`. `none` in `thread_id` / `user_id`
models Python `None`. -/
structure InvokeRequest where
  message : String
  node : String := "assistant"
  thread_id : Option String := none
  user_id : Option String := none
deriving Repr, DecidableEq

/-- `InvokeResponse` from `main.py`. The structured response dict is kept
abstract as its serialized form. -/
structure InvokeResponse where
  thread_id : String
  node : String
  response : String
  structured_response : Option String := none
deriving Repr, DecidableEq

/-- A FastAPI `HTTPException(status, detail)`. -/
structure HTTPError where
  status : Nat
  detail : String
deriving Repr, DecidableEq

/-- Python `repr` of a string, as used when an f-string formats a list of
strings (single quotes around the text; the registered node names contain
no characters needing escapes). -/
def pyStrRepr (s : String) : String := "\x27" ++ s ++ "\x27"

/-- Python `str` of a list of strings, as `f"... {NODES}"` renders it. -/
def pyListRepr (l : List String) : String :=
  "[" ++ String.intercalate ", " (l.map pyStrRepr) ++ "]"

/-- `thread_id = request.thread_id or str(uuid.uuid4())` from both
handlers: Python `or` takes the fresh UUID when `thread_id` is `None` or
the empty string (falsy), and the supplied value otherwise. The generated
UUID is external and passed in as `freshId`. -/
def resolveThreadId (requestThreadId : Option String) (freshId : String) :
    String :=
  match requestThreadId with
  | none => freshId
  | some t => if t = "" then freshId else t

/-- What the compiled graph run returns, restricted to what the handler
reads: the contents of `result["messages"]` and the serialized
`result["structured_response"]` if any. -/
structure GraphResult where
  messages : List String
  structured_response : Option String := none
deriving Repr, DecidableEq

/-- The `response_text` extraction in `invoke`: content of the last
message, or `""` when there are no messages. -/
def extractResponseText (messages : List String) : String :=
  match messages.getLast? with
  | some content => content
  | none => ""

/-- Outcome of the `invoke` handler: the HTTP-level result plus whether
`graph.ainvoke` was reached (used to state that rejected requests never
run the graph). -/
structure InvokeOutcome where
  result : Except HTTPError InvokeResponse
  graphInvoked : Bool
deriving Repr

/-- The `/invoke` handler from `main.py`. The graph run is the external
parameter `runGraph`, taking the resolved thread id (the handler passes it
in the config and context) and returning the result or raising. -/
def invoke (runGraph : String → Except String GraphResult) (freshId : String)
    (request : InvokeRequest) : InvokeOutcome :=
  if request.node ∈ NODES then
    let threadId := resolveThreadId request.thread_id freshId
    match runGraph threadId with
    | Except.ok result =>
      { result := Except.ok
          { thread_id := threadId
            node := request.node
            response := extractResponseText result.messages
            structured_response := result.structured_response }
        graphInvoked := true }
    | Except.error e =>
      { result := Except.error { status := 500, detail := e }
        graphInvoked := true }
  else
    { result := Except.error
        { status := 400
          detail := "Unknown node: " ++ request.node ++ ". Available: "
            ++ pyListRepr NODES }
      graphInvoked := false }

/-! ## main.py : streaming -/

/-- One event from `graph.astream_events`, restricted to what `generate`
reads: the `"event"` kind and the optional `data.chunk` with its
`content`. `chunk = some c` with `c = ""` models a falsy (empty) chunk
content. -/
structure StreamEvent where
  event : String
  chunk : Option String
deriving Repr, DecidableEq

/-- The body of the event loop in `generate`: a token line is yielded for
an `on_chat_model_stream` event whose chunk is present and has truthy
(non-empty) content. -/
def eventTokenLine (e : StreamEvent) : Option String :=
  if e.event = "on_chat_model_stream" then
    match e.chunk with
    | some content => if content ≠ "" then some ("data: " ++ content ++ "\n\n") else none
    | none => none
  else none

/-- The SSE generator `generate` from the `/stream` handler. The event
iterator either yields `events` and completes normally (`err = none`) or
yields `events` and then raises with message `e` (`err = some e`); on
normal completion the sentinel `data: [DONE]` is yielded, on an exception
the in-band error line is yielded and the generator ends. Returns the full
sequence of yielded SSE lines. -/
def generate (events : List StreamEvent) (err : Option String) :
    List String :=
  events.filterMap eventTokenLine ++
    match err with
    | none => ["data: [DONE]\n\n"]
    | some e => ["data: Error: " ++ e ++ "\n\n"]

/-- Outcome of the `/stream` handler before any streaming happens: either
the 400 rejection or acceptance (the `StreamingResponse` whose body is
`generate`). -/
def streamCheck (request : InvokeRequest) : Option HTTPError :=
  if request.node ∈ NODES then none
  else some { status := 400, detail := "Unknown node: " ++ request.node }

/-! ## Theorems -/

/-- Claim C3 (confirmed): when the tool handler raises, `ToolErrorMiddleware`
does not propagate the exception; it returns a `ToolMessage` whose
`tool_call_id` is the originating tool call's id and whose content is the
human-readable description built from the tool name and the exception
text. -/
theorem C3_tool_error_isolated (A : Type) (tc : ToolCallInfo) (e : String) :
    ∃ m : ToolMessage,
      (toolError_handle tc (Except.error e) : ToolCallResult A)
        = ToolCallResult.errMsg m
      ∧ m.tool_call_id = tc.id
      ∧ m.content = "Tool error in \x27" ++ tc.name.getD "unknown"
          ++ "\x27: " ++ e ++ ". Please check your input and try again." :=
  ⟨toolError_error_message tc e, rfl, rfl, rfl⟩

/-- Claim C4, counterexample: with the declared default settings
(`ENABLE_LOGGING=False`, `ENABLE_RETRY=False`) the chain built at startup
is `[summarization, tool-error]`, not the four claimed stages. -/
theorem C4_counterexample :
    DEFAULT_MIDDLEWARE = [Stage.summarization, Stage.toolError]
    ∧ DEFAULT_MIDDLEWARE
        ≠ [Stage.summarization, Stage.logging, Stage.retry, Stage.toolError] := by
  constructor <;> decide

/-- Claim C4 (amended): the chain is built once from the settings as
summarization (if enabled), logging (if enabled), retry (if enabled), then
tool-error-isolation; it is exactly the four claimed stages in the claimed
order when all three optional stages are enabled, while the default
settings give `[summarization, tool-error]`. -/
theorem C4_chain_order (s : Settings)
    (hsum : s.ENABLE_SUMMARIZATION = true)
    (hlog : s.ENABLE_LOGGING = true)
    (hret : s.ENABLE_RETRY = true) :
    build_middleware s
      = [Stage.summarization, Stage.logging, Stage.retry, Stage.toolError]
    ∧ DEFAULT_MIDDLEWARE = [Stage.summarization, Stage.toolError] := by
  constructor
  · simp [build_middleware, hsum, hlog, hret]
  · decide

/-- Witness for C4: the chain at the all-enabled settings. -/
theorem C4_chain_order_witness :
    build_middleware
        { ENABLE_RETRY := true, ENABLE_LOGGING := true,
          ENABLE_SUMMARIZATION := true }
      = [Stage.summarization, Stage.logging, Stage.retry, Stage.toolError]
    ∧ DEFAULT_MIDDLEWARE = [Stage.summarization, Stage.toolError] :=
  C4_chain_order _ rfl rfl rfl

/-- Claim C5, counterexample: on a state whose `node` field is present but
empty, `route_to_node` returns the empty string, not the default
`"assistant"` (Python `dict.get` only falls back when the key is absent). -/
theorem C5_counterexample :
    route_to_node { node := some "" } = ""
    ∧ route_to_node { node := some "" } ≠ "assistant" := by
  constructor
  · rfl
  · decide

/-- Claim C5 (amended): `route_to_node` returns the routing field's value
whenever the field is present — in particular any registered node name,
but also the empty string — and returns the default `"assistant"` only
when the field is absent. -/
theorem C5_route (v : String) :
    route_to_node { node := some v } = v
    ∧ route_to_node { node := none } = "assistant" :=
  ⟨rfl, rfl⟩

/-- Claim C9 (confirmed): `logging_middleware` passes the request to the
inner handler unmodified and returns exactly the handler's outcome
(successful response or propagated exception); it only appends log lines. -/
theorem C9_logging_transparent (E A : Type) (elapsed : String)
    (requestMessages : List String)
    (handler : List String → Except E A) :
    (logging_middleware elapsed requestMessages handler).fst
      = handler requestMessages := by
  unfold logging_middleware
  cases h : handler requestMessages <;> simp [h]

/-- Claim C10 (confirmed): `calculate` always returns a string and never
propagates an exception: any input with a character outside the allowed
set yields `"Error: Invalid characters"`, a raising evaluation of an
allowed input yields `"Error: " ++ e`, and a successful evaluation yields
its printed value. -/
theorem C10_calculate_safe (evalStr : String → Except String String)
    (expression : String) :
    ((∃ c ∈ expression.toList, c ∉ calculateAllowed) →
      calculate evalStr expression = "Error: Invalid characters")
    ∧ (∀ e, (∀ c ∈ expression.toList, c ∈ calculateAllowed) →
        evalStr expression = Except.error e →
        calculate evalStr expression = "Error: " ++ e)
    ∧ (∀ v, (∀ c ∈ expression.toList, c ∈ calculateAllowed) →
        evalStr expression = Except.ok v →
        calculate evalStr expression = v) := by
  unfold calculate
  refine ⟨?_, ?_, ?_⟩
  · rintro ⟨c, hc, hna⟩
    rw [if_neg]
    intro hall
    rw [List.all_eq_true] at hall
    exact hna (by simpa using hall c hc)
  · intro e hallowed herr
    rw [if_pos (List.all_eq_true.mpr fun c hc => by simpa using hallowed c hc),
      herr]
  · intro v hallowed hok
    rw [if_pos (List.all_eq_true.mpr fun c hc => by simpa using hallowed c hc),
      hok]

/-- Witness for C10 at concrete inputs: a disallowed character and a
raising evaluation. -/
theorem C10_calculate_safe_witness :
    calculate (fun _ => Except.error "unused") "2 + $"
      = "Error: Invalid characters"
    ∧ calculate (fun _ => Except.error "division by zero") "1/0"
      = "Error: division by zero" := by
  constructor
  · exact (C10_calculate_safe (fun _ => Except.error "unused") "2 + $").1
      ⟨'$', by decide, by decide⟩
  · exact (C10_calculate_safe (fun _ => Except.error "division by zero")
      "1/0").2.1 "division by zero" (by decide) rfl

/-! ### Retry middleware lemmas -/

/-- Each backoff delay is capped at the configured maximum delay. -/
lemma retryDelay_le_cap (i : Nat) :
    retryDelay i ≤ middleware_config.max_retry_delay :=
  min_le_right _ _

/-- Below the cap the backoff delays are strictly increasing. -/
lemma retryDelay_lt_of_lt {i j : Nat} (hij : i < j)
    (h : retryDelay i < middleware_config.max_retry_delay) :
    retryDelay i < retryDelay j := by
  have hb : (0 : ℚ) < middleware_config.retry_base_delay := by
    norm_num [middleware_config]
  have hpow : middleware_config.retry_base_delay * 2 ^ i
      < middleware_config.retry_base_delay * 2 ^ j :=
    mul_lt_mul_of_pos_left (pow_lt_pow_right₀ one_lt_two hij) hb
  have hlt : middleware_config.retry_base_delay * 2 ^ i
      < middleware_config.max_retry_delay := by
    by_contra hge
    push_neg at hge
    rw [retryDelay, min_eq_right hge] at h
    exact lt_irrefl _ h
  have hmin : retryDelay i = middleware_config.retry_base_delay * 2 ^ i := by
    rw [retryDelay, min_eq_left hlt.le]
  rw [hmin, retryDelay]
  exact lt_min hpow hlt

/-- Rearranging the delay list produced by one unrolling of the retry
loop: the delay of the current attempt followed by the delays of the later
attempts is the delay list of all attempts. -/
lemma retryDelay_cons_range (a k : Nat) :
    retryDelay a :: (List.range k).map (fun i => retryDelay (a + 1 + i))
      = (List.range (k + 1)).map (fun i => retryDelay (a + i)) := by
  rw [List.range_succ_eq_map, List.map_cons, List.map_map]
  simp only [Nat.add_zero, Function.comp]
  congr 1
  apply List.map_congr_left
  intro i _
  congr 1
  omega

/-- One unrolling of the retry loop at a failing attempt: the error is
recorded, a delay is slept, and the loop continues with one fewer
iteration. -/
lemma retryAux_step_err (handler : Nat → Except E A) (a rem : Nat)
    (le : Option E) (e : E) (h : handler a = Except.error e) :
    retryAux handler a (rem + 1) le =
      ⟨(retryAux handler (a + 1) rem (some e)).result,
        (retryAux handler (a + 1) rem (some e)).calls + 1,
        retryDelay a :: (retryAux handler (a + 1) rem (some e)).delays⟩ := by
  conv_lhs => rw [retryAux]
  rw [h]

/-- One unrolling of the retry loop at a succeeding attempt: the result
is returned immediately. -/
lemma retryAux_step_ok (handler : Nat → Except E A) (a rem : Nat)
    (le : Option E) (v : A) (h : handler a = Except.ok v) :
    retryAux handler a (rem + 1) le = ⟨Except.ok v, 1, []⟩ := by
  conv_lhs => rw [retryAux]
  rw [h]

/-- Behaviour of the retry loop when the attempts starting at `a` fail
`k` times and then succeed, with enough iterations remaining: the handler
runs `k + 1` times, the successful value is returned, and one backoff
delay is slept after each failure. -/
lemma retryAux_succ_after_fails (handler : Nat → Except E A) (v : A) :
    ∀ (k a rem : Nat) (le : Option E),
      (∀ i, i < k → ∃ e, handler (a + i) = Except.error e) →
      handler (a + k) = Except.ok v → k < rem →
      retryAux handler a rem le =
        ⟨Except.ok v, k + 1, (List.range k).map (fun i => retryDelay (a + i))⟩ := by
  intro k
  induction k with
  | zero =>
    intro a rem le _ hok hrem
    match rem, hrem with
    | rem + 1, _ =>
      rw [Nat.add_zero] at hok
      rw [retryAux_step_ok handler a rem le _ hok]
      simp
  | succ k ih =>
    intro a rem le hfail hok hrem
    match rem, hrem with
    | rem + 1, hrem =>
      obtain ⟨e0, he0⟩ := hfail 0 (Nat.succ_pos k)
      rw [Nat.add_zero] at he0
      have hrest := ih (a + 1) rem (some e0)
        (fun i hi => by
          obtain ⟨e, he⟩ := hfail (i + 1) (by omega)
          exact ⟨e, by rwa [show a + (i + 1) = a + 1 + i by omega] at he⟩)
        (by rwa [show a + 1 + k = a + (k + 1) by omega])
        (by omega)
      rw [retryAux_step_err handler a rem le e0 he0, hrest]
      rw [RetryTrace.mk.injEq]
      exact ⟨rfl, rfl, retryDelay_cons_range a k⟩

/-- Behaviour of the retry loop when every remaining attempt fails: the
handler runs on every iteration, a delay is slept after each failure
(including the last), and the error recorded last is raised. -/
lemma retryAux_all_fail (handler : Nat → Except E A) (errs : Nat → E) :
    ∀ (rem a : Nat) (le : Option E),
      (∀ i, i < rem + 1 → handler (a + i) = Except.error (errs (a + i))) →
      retryAux handler a (rem + 1) le =
        ⟨Except.error (some (errs (a + rem))), rem + 1,
          (List.range (rem + 1)).map (fun i => retryDelay (a + i))⟩ := by
  intro rem
  induction rem with
  | zero =>
    intro a le hfail
    have h0 := hfail 0 (by omega)
    rw [Nat.add_zero] at h0
    rw [retryAux_step_err handler a 0 le _ h0]
    simp [retryAux, List.range_succ]
  | succ rem ih =>
    intro a le hfail
    have h0 := hfail 0 (by omega)
    rw [Nat.add_zero] at h0
    have hrest := ih (a + 1) (some (errs a))
      (fun i hi => by
        have he := hfail (i + 1) (by omega)
        rwa [show a + (i + 1) = a + 1 + i by omega] at he)
    rw [retryAux_step_err handler a (rem + 1) le _ h0, hrest]
    rw [RetryTrace.mk.injEq]
    refine ⟨by rw [show a + 1 + rem = a + (rem + 1) by omega], rfl, ?_⟩
    exact retryDelay_cons_range a (rem + 1)

/-- Claim C1 (confirmed): when the handler fails the first `N - 1`
attempts and succeeds on attempt `N`, with `N` at most the configured
maximum, `retry_middleware` calls the handler exactly `N` times, sleeps
between attempts delays of `base * 2^attempt` capped at the maximum delay
(strictly increasing until the cap), and returns the successful result
unchanged. -/
theorem C1_retry_succeeds (E A : Type) (maxRetries N : Nat)
    (handler : Nat → Except E A) (v : A)
    (hN : 1 ≤ N) (hmax : N ≤ maxRetries)
    (hfail : ∀ i, i < N - 1 → ∃ e, handler i = Except.error e)
    (hok : handler (N - 1) = Except.ok v) :
    (retry_middleware maxRetries handler).result = Except.ok v
    ∧ (retry_middleware maxRetries handler).calls = N
    ∧ (retry_middleware maxRetries handler).delays =
        (List.range (N - 1)).map
          (fun attempt =>
            min (middleware_config.retry_base_delay * 2 ^ attempt)
              middleware_config.max_retry_delay)
    ∧ (∀ d ∈ (retry_middleware maxRetries handler).delays,
        d ≤ middleware_config.max_retry_delay)
    ∧ (∀ i j, i < j → j < N - 1 →
        retryDelay i < middleware_config.max_retry_delay →
        retryDelay i < retryDelay j) := by
  have key := retryAux_succ_after_fails handler v (N - 1) 0 maxRetries none
    (fun i hi => by simpa using hfail i hi)
    (by simpa using hok) (by omega)
  unfold retry_middleware
  rw [key]
  refine ⟨rfl, show N - 1 + 1 = N by omega, ?_, ?_, ?_⟩
  · simp [retryDelay]
  · intro d hd
    simp only [List.mem_map] at hd
    obtain ⟨i, _, rfl⟩ := hd
    exact retryDelay_le_cap _
  · intro i j hij _ hlt
    exact retryDelay_lt_of_lt hij hlt

/-- Witness for C1: a handler that fails once and then succeeds, run
under the configured `settings.MAX_RETRIES`, makes two calls, sleeps the
one-second base delay once, and returns the success. -/
theorem C1_retry_succeeds_witness :
    (retry_middleware settings.MAX_RETRIES
        (fun i => if i = 0 then Except.error "boom" else Except.ok "four")).result
      = Except.ok "four"
    ∧ (retry_middleware settings.MAX_RETRIES
        (fun i => if i = 0 then Except.error "boom" else Except.ok "four")).calls
      = 2
    ∧ (retry_middleware settings.MAX_RETRIES
        (fun i => if i = 0 then Except.error "boom" else Except.ok "four")).delays
      = [1] := by
  obtain ⟨h1, h2, h3, -, -⟩ := C1_retry_succeeds String String
    settings.MAX_RETRIES 2
    (fun i => if i = 0 then Except.error "boom" else Except.ok "four") "four"
    (by norm_num) (by norm_num [settings])
    (fun i hi => ⟨"boom", by have h0 : i = 0 := by omega
                             subst h0
                             rfl⟩)
    rfl
  refine ⟨h1, h2, ?_⟩
  rw [h3]
  norm_num [middleware_config, List.range_succ, min_def]

/-- Claim C2, counterexample: with `settings.MAX_RETRIES = 3` and a
handler whose attempt `i` fails with error `i`, the middleware raises the
error of the last attempt (`2`), not the failure of the first attempt
(`0`). -/
theorem C2_counterexample :
    (retry_middleware settings.MAX_RETRIES
        (fun i => (Except.error i : Except Nat Unit))).result
      = Except.error (some 2)
    ∧ (retry_middleware settings.MAX_RETRIES
        (fun i => (Except.error i : Except Nat Unit))).result
      ≠ Except.error (some 0) := by
  refine ⟨rfl, ?_⟩
  intro h
  rw [show (retry_middleware settings.MAX_RETRIES
      (fun i => (Except.error i : Except Nat Unit))).result
      = Except.error (some 2) from rfl] at h
  simp at h

/-- Claim C2 (amended): when every attempt fails, `retry_middleware`
calls the handler exactly `settings.MAX_RETRIES` times and then raises
the failure of the last attempt. -/
theorem C2_retry_all_fail (E A : Type) (maxRetries : Nat)
    (handler : Nat → Except E A) (errs : Nat → E)
    (hmax : 1 ≤ maxRetries)
    (hfail : ∀ i, i < maxRetries → handler i = Except.error (errs i)) :
    (retry_middleware maxRetries handler).calls = maxRetries
    ∧ (retry_middleware maxRetries handler).result
        = Except.error (some (errs (maxRetries - 1))) := by
  obtain ⟨rem, rfl⟩ : ∃ rem, maxRetries = rem + 1 := ⟨maxRetries - 1, by omega⟩
  have key := retryAux_all_fail handler errs rem 0 none
    (fun i hi => by simpa using hfail i hi)
  unfold retry_middleware
  rw [key]
  exact ⟨rfl, by simp⟩

/-- Witness for C2: an always-failing handler under the configured
`settings.MAX_RETRIES` is called three times and the error of attempt 2
is raised. -/
theorem C2_retry_all_fail_witness :
    (retry_middleware settings.MAX_RETRIES
        (fun i => (Except.error i : Except Nat Unit))).calls
      = settings.MAX_RETRIES
    ∧ (retry_middleware settings.MAX_RETRIES
        (fun i => (Except.error i : Except Nat Unit))).result
      = Except.error (some 2) := by
  obtain ⟨h1, h2⟩ := C2_retry_all_fail Nat Unit settings.MAX_RETRIES
    (fun i => (Except.error i : Except Nat Unit)) (fun i => i)
    (by norm_num [settings]) (fun i _ => rfl)
  exact ⟨h1, h2⟩

/-! ### Endpoint claims -/

/-- An infix of a list is an infix of any left-extension of it. -/
lemma infix_append_left {α : Type} (l l₁ l₂ : List α) (h : l₁ <:+: l₂) :
    l₁ <:+: l ++ l₂ := by
  obtain ⟨s, t, rfl⟩ := h
  exact ⟨l ++ s, t, by simp⟩

/-- Claim C6, counterexample: the `/stream` handler rejects an
unregistered node with status 400, but its message is only
`"Unknown node: x"`; it does not name the registered node `"assistant"`,
so it does not name the set of valid node names. -/
theorem C6_counterexample :
    streamCheck { message := "hi", node := "x" }
      = some { status := 400, detail := "Unknown node: x" }
    ∧ "assistant" ∈ NODES
    ∧ ¬ ("assistant".toList <:+: "Unknown node: x".toList) := by
  refine ⟨rfl, by decide, by decide⟩

/-- Claim C6 (amended): a request whose node is unregistered is rejected
with HTTP 400 by both endpoints and the graph is never invoked; the
`/invoke` message names every valid node name, while the `/stream`
message only echoes the unknown node. -/
theorem C6_unknown_node_rejected
    (runGraph : String → Except String GraphResult) (freshId : String)
    (req : InvokeRequest) (hn : req.node ∉ NODES) :
    (invoke runGraph freshId req).result
      = Except.error
          { status := 400
            detail := "Unknown node: " ++ req.node ++ ". Available: "
              ++ pyListRepr NODES }
    ∧ (invoke runGraph freshId req).graphInvoked = false
    ∧ (∀ n ∈ NODES,
        n.toList <:+: ("Unknown node: " ++ req.node ++ ". Available: "
          ++ pyListRepr NODES).toList)
    ∧ streamCheck req
        = some { status := 400, detail := "Unknown node: " ++ req.node } := by
  refine ⟨?_, ?_, ?_, ?_⟩
  · unfold invoke
    rw [if_neg hn]
  · unfold invoke
    rw [if_neg hn]
  · intro n hmem
    have hn2 : n = "assistant" := by simpa [NODES] using hmem
    subst hn2
    have base : "assistant".toList <:+: (pyListRepr NODES).toList := by decide
    have hsplit : ("Unknown node: " ++ req.node ++ ". Available: "
        ++ pyListRepr NODES).toList
        = ("Unknown node: " ++ req.node ++ ". Available: ").toList
          ++ (pyListRepr NODES).toList :=
      String.data_append _ _
    rw [hsplit]
    exact infix_append_left _ _ _ base
  · unfold streamCheck
    rw [if_neg hn]

/-- Witness for C6 at the concrete unregistered node `"x"`. -/
theorem C6_unknown_node_rejected_witness :
    (invoke (fun _ => Except.ok { messages := [] }) "f"
        { message := "hi", node := "x" }).result
      = Except.error
          { status := 400
            detail := "Unknown node: x. Available: [\x27assistant\x27]" }
    ∧ (invoke (fun _ => Except.ok { messages := [] }) "f"
        { message := "hi", node := "x" }).graphInvoked = false
    ∧ streamCheck { message := "hi", node := "x" }
        = some { status := 400, detail := "Unknown node: x" } := by
  obtain ⟨h1, h2, -, h4⟩ := C6_unknown_node_rejected
    (fun _ => Except.ok { messages := [] }) "f"
    { message := "hi", node := "x" } (by decide)
  refine ⟨?_, h2, h4⟩
  rw [h1]
  rfl

/-- Claim C7, counterexample: when the event stream raises before any
token, the generator emits only the in-band error line; the
`data: [DONE]` sentinel is not emitted on failure. -/
theorem C7_counterexample :
    generate [] (some "boom") = ["data: Error: boom\n\n"]
    ∧ "data: [DONE]\n\n" ∉ generate [] (some "boom") := by
  refine ⟨rfl, ?_⟩
  rw [show generate [] (some "boom") = ["data: Error: boom\n\n"] from rfl]
  decide

/-- Claim C7 (amended): the stream never ends silently: on success the
token lines are followed by the terminal `data: [DONE]` sentinel as the
final line, and on failure the token lines emitted so far are followed by
an in-band `data: Error: ...` line as the final line (without the
sentinel); in both cases at least one line is emitted. -/
theorem C7_stream_termination (events : List StreamEvent) (e : String) :
    (generate events none).getLast? = some "data: [DONE]\n\n"
    ∧ (generate events none).dropLast = events.filterMap eventTokenLine
    ∧ (generate events (some e)).getLast?
        = some ("data: Error: " ++ e ++ "\n\n")
    ∧ (generate events (some e)).dropLast = events.filterMap eventTokenLine
    ∧ generate events none ≠ []
    ∧ generate events (some e) ≠ [] := by
  unfold generate
  refine ⟨?_, ?_, ?_, ?_, ?_, ?_⟩
  · rw [List.getLast?_concat]
  · rw [List.dropLast_concat]
  · rw [List.getLast?_concat]
  · rw [List.dropLast_concat]
  · simp
  · simp

/-- Claim C8 (confirmed): on a successful `/invoke`, the response's
`thread_id` is the freshly generated UUID when the request supplied none,
and is exactly the supplied value when a non-empty `thread_id` was
given. -/
theorem C8_thread_id (runGraph : String → Except String GraphResult)
    (freshId : String) (req : InvokeRequest) (res : GraphResult)
    (hnode : req.node ∈ NODES)
    (hrun : runGraph (resolveThreadId req.thread_id freshId)
      = Except.ok res) :
    ∃ resp : InvokeResponse,
      (invoke runGraph freshId req).result = Except.ok resp
      ∧ (req.thread_id = none → resp.thread_id = freshId)
      ∧ (∀ t, req.thread_id = some t → t ≠ "" → resp.thread_id = t) := by
  refine ⟨{ thread_id := resolveThreadId req.thread_id freshId
            node := req.node
            response := extractResponseText res.messages
            structured_response := res.structured_response }, ?_, ?_, ?_⟩
  · unfold invoke
    rw [if_pos hnode]
    dsimp only
    rw [hrun]
  · intro h
    simp [resolveThreadId, h]
  · intro t ht hne
    simp [resolveThreadId, ht, hne]

/-- Witness for C8: a request with no `thread_id` gets the fresh UUID
back. -/
theorem C8_thread_id_witness :
    ∃ resp : InvokeResponse,
      (invoke (fun _ => Except.ok { messages := ["4"] }) "fresh-uuid"
          { message := "2+2", node := "assistant" }).result
        = Except.ok resp
      ∧ resp.thread_id = "fresh-uuid" := by
  obtain ⟨resp, h1, h2, -⟩ := C8_thread_id
    (fun _ => Except.ok { messages := ["4"] }) "fresh-uuid"
    { message := "2+2", node := "assistant" } { messages := ["4"] }
    (by decide) rfl
  exact ⟨resp, h1, h2 rfl⟩

end Agents
